import Mathlib

/-!
Verification of the natural-language specification of the pix2latent demo
(`demo.py`, `examples/invert_biggan_basincma.py`) against a shallow Lean
embedding of the code.  Tensors are modelled as flat lists of rationals with
explicit shape metadata; Python assertion failures and raised exceptions are
modelled with `Except String`.
-/

namespace Pix2Latent

/-! ## Basic value model -/

/-- torch clamp semantics: `clamp(x, lo, hi) = min (max x lo) hi`. -/
def clampQ (x lo hi : ℚ) : ℚ := min (max x lo) hi

/-- A Python scalar as seen by `type(cls_lbl) == int`: either an `int`,
`None`, or some other (non-int) scalar such as a float. -/
inductive PyScalar where
  | pyInt (n : Int)
  | pyNone
  | pyOther
deriving DecidableEq

/-- Whether `type(x) == int` holds. -/
def PyScalar.isInt : PyScalar → Bool
  | .pyInt _ => true
  | _ => false

/-- A numpy image: an HWC shape together with its (flattened) data. -/
structure NpImage where
  shape : Nat × Nat × Nat
  data : List ℚ
deriving DecidableEq

/-- A numpy mask: an HW1-style shape `(h, w, c)` with flattened data. -/
structure NpMask where
  h : Nat
  w : Nat
  c : Nat
  data : List ℚ
deriving DecidableEq

/-- `np.min` over the flattened data (`none` on a zero-size array, where
numpy raises). -/
def listMinQ : List ℚ → Option ℚ
  | [] => none
  | x :: xs =>
    match listMinQ xs with
    | none => some x
    | some y => some (min x y)

/-- `np.max` over the flattened data (`none` on a zero-size array). -/
def listMaxQ : List ℚ → Option ℚ
  | [] => none
  | x :: xs =>
    match listMaxQ xs with
    | none => some x
    | some y => some (max x y)

/-! ## `prepare_input` (demo.py lines 72–136) -/

/-- Result of `prepare_input`: the normalized image tensor, the class
embedding (kept abstract as the class index fed to the embedder), and the
mask tensor with its 4-D shape. -/
structure PreparedInput where
  imData : List ℚ
  clsEmbed : Int
  maskShape : Nat × Nat × Nat × Nat
  maskData : List ℚ
deriving DecidableEq

/-- The mask branch of `prepare_input` (demo.py lines 106–122): spatial and
channel shape asserts, the `np.min(mask) > -1e-6` assert, reshape to
`(1, 1, h, w)`, and the 0–255 rescale; with no mask, `np.ones((1,1,256,256))`. -/
def checkMask (imShape : Nat × Nat × Nat) :
    Option NpMask → Except String ((Nat × Nat × Nat × Nat) × List ℚ)
  | some m =>
    if m.h = imShape.1 ∧ m.w = imShape.2.1 then
      if m.c = 1 then
        match listMinQ m.data with
        | some mn =>
          if mn > -(1/1000000) then
            match listMaxQ m.data with
            | some mx =>
              .ok ((1, 1, m.h, m.w),
                   if mx > 1 + 1/1000000 then m.data.map (fun x => x / 255)
                   else m.data)
            | none => .error "zero-size array in mask max"
          else .error "mask has a negative value"
        | none => .error "zero-size array in mask min"
      else .error "expected channel size 1"
    else .error "im and mask have different spatial dimensions"
  | none => .ok ((1, 1, 256, 256), List.replicate (256 * 256) 1)

/-- `prepare_input` (demo.py lines 72–136): asserts the image shape matches
the declared `image_shape`, asserts the class label is a Python `int`,
rescales 0–255 images, validates and normalizes the mask, clamps the mask
tensor to `[mask_threshold, 1]`, and maps the image to `2*(x - 0.5)`. -/
def prepare_input (imageShape : Nat × Nat × Nat) (im : NpImage)
    (clsLbl : PyScalar) (mask : Option NpMask) (maskThreshold : ℚ) :
    Except String PreparedInput :=
  if im.shape = imageShape then
    match clsLbl with
    | .pyInt n =>
      match listMaxQ im.data with
      | some mx =>
        let imData := if mx > 1 + 1/1000000
                      then im.data.map (fun x => x / 255) else im.data
        match checkMask im.shape mask with
        | .ok (mshape, mdata) =>
          .ok { imData := imData.map (fun x => 2 * (x - 1/2)),
                clsEmbed := n,
                maskShape := mshape,
                maskData := mdata.map (fun x => clampQ x maskThreshold 1) }
        | .error e => .error e
      | none => .error "zero-size array in image max"
    | _ => .error "expected cls_lbl to be an integer"
  else .error "expected shape does not match supplied image shape"

/-! ## Loss composition (demo.py lines 65–68) -/

/-- The projector object as built by `__init__`: the reconstruction loss,
the perceptual loss, and the composed loss closure. -/
structure Projector where
  rloss_fn : List ℚ → List ℚ → List ℚ → ℚ
  ploss_fn : List ℚ → List ℚ → List ℚ → ℚ
  loss_fn : List ℚ → List ℚ → List ℚ → ℚ

/-- `__init__` (demo.py lines 47–69): installs the component losses and the
closure `loss_fn = lambda x, y, m: rloss_fn(x, y, m) + 10. * ploss_fn(x, y, m)`. -/
def initProjector (rloss ploss : List ℚ → List ℚ → List ℚ → ℚ) : Projector :=
  { rloss_fn := rloss,
    ploss_fn := ploss,
    loss_fn := fun x y m => rloss x y m + 10 * ploss x y m }

/-! ## Batch scheduler

Modelled from the spec: the minibatch evaluation of `BasinCMAOptimizer`
(the Batch Scheduler, spec section 4.2) is not under `src/`; only its caller
`demo.py` is.  Per the spec it "partitions candidates into `ceil(N/M)`
ordered chunks, each evaluated independently through the Loss Evaluator, and
concatenates per-candidate results back into the original order". -/

/-- Fuel-indexed chunker: splits a list into ordered chunks of size `M`
(the last chunk may be shorter).  The fuel is instantiated with the length
of the list, keeping the definition structurally recursive. -/
def chunkListAux : Nat → Nat → List α → List (List α)
  | 0, _, _ => []
  | _ + 1, _, [] => []
  | fuel + 1, M, x :: xs =>
    (x :: xs.take (M - 1)) :: chunkListAux fuel M (xs.drop (M - 1))

/-- Modelled from the spec: partition a population into ordered chunks of at
most `M` candidates each. -/
def chunkList (M : Nat) (l : List α) : List (List α) :=
  chunkListAux l.length M l

/-- Modelled from the spec: evaluate a population in minibatches of size at
most `M`, evaluating every candidate of a chunk independently via the
per-candidate evaluator `f`, and concatenate the per-candidate results in
the original order. -/
def evalInBatches (f : α → ℚ × β) (M : Nat) (pop : List α) : List (ℚ × β) :=
  ((chunkList M pop).map (fun chunk => chunk.map f)).flatten

/-- Evaluating the whole population in one pass. -/
def evalOnePass (f : α → ℚ × β) (pop : List α) : List (ℚ × β) :=
  pop.map f

/-! ### Chunker lemmas -/

theorem chunkListAux_join (M : Nat) :
    ∀ (fuel : Nat) (l : List α), l.length ≤ fuel →
      (chunkListAux fuel M l).flatten = l := by
  intro fuel
  induction fuel with
  | zero =>
    intro l hl
    have : l = [] := List.eq_nil_of_length_eq_zero (Nat.le_zero.mp hl)
    subst this
    rfl
  | succ fuel ih =>
    intro l hl
    cases l with
    | nil => rfl
    | cons x xs =>
      simp only [chunkListAux, List.flatten_cons]
      rw [ih (xs.drop (M - 1)) ?_]
      · simp [List.take_append_drop]
      · have hx : xs.length ≤ fuel := by
          simpa [List.length_cons] using Nat.succ_le_succ_iff.mp hl
        calc (xs.drop (M - 1)).length ≤ xs.length := by
              simp [List.length_drop]
          _ ≤ fuel := hx

theorem chunkListAux_map_join (M : Nat) (f : α → β) :
    ∀ (fuel : Nat) (l : List α), l.length ≤ fuel →
      ((chunkListAux fuel M l).map (List.map f)).flatten = l.map f := by
  intro fuel
  induction fuel with
  | zero =>
    intro l hl
    have : l = [] := List.eq_nil_of_length_eq_zero (Nat.le_zero.mp hl)
    subst this
    rfl
  | succ fuel ih =>
    intro l hl
    cases l with
    | nil => rfl
    | cons x xs =>
      simp only [chunkListAux, List.map_cons, List.flatten_cons]
      rw [ih (xs.drop (M - 1)) ?_]
      · rw [← List.map_cons, ← List.map_append, List.cons_append,
            List.take_append_drop]
        simp
      · have hx : xs.length ≤ fuel := by
          simpa [List.length_cons] using Nat.succ_le_succ_iff.mp hl
        calc (xs.drop (M - 1)).length ≤ xs.length := by
              simp [List.length_drop]
          _ ≤ fuel := hx

theorem chunkListAux_length (M : Nat) (hM : 1 ≤ M) :
    ∀ (fuel : Nat) (l : List α), l.length ≤ fuel →
      (chunkListAux fuel M l).length = (l.length + M - 1) / M := by
  intro fuel
  induction fuel with
  | zero =>
    intro l hl
    have : l = [] := List.eq_nil_of_length_eq_zero (Nat.le_zero.mp hl)
    subst this
    simp [chunkListAux, Nat.div_eq_of_lt (by omega : M - 1 < M)]
  | succ fuel ih =>
    intro l hl
    cases l with
    | nil =>
      simp [chunkListAux, Nat.div_eq_of_lt (by omega : M - 1 < M)]
    | cons x xs =>
      simp only [chunkListAux, List.length_cons]
      have hx : xs.length ≤ fuel := by
        simpa [List.length_cons] using Nat.succ_le_succ_iff.mp hl
      have hdrop : (xs.drop (M - 1)).length ≤ fuel := by
        calc (xs.drop (M - 1)).length ≤ xs.length := by
              simp [List.length_drop]
          _ ≤ fuel := hx
      rw [ih (xs.drop (M - 1)) hdrop]
      rw [List.length_drop]
      set n := xs.length with hn
      have hsplit : n + 1 + M - 1 = n + M := by omega
      rw [hsplit]
      rw [Nat.add_div_right n (by omega : 0 < M)]
      by_cases hcase : M - 1 ≤ n
      · have h1 : n - (M - 1) + M - 1 = n := by omega
        rw [h1]
      · have h1 : n - (M - 1) = 0 := by omega
        rw [h1]
        have h2 : (0 + M - 1) / M = 0 :=
          Nat.div_eq_of_lt (by omega : 0 + M - 1 < M)
        have h4 : n / M = 0 := Nat.div_eq_of_lt (by omega : n < M)
        omega

/-! ### Helper lemmas on list minima and clamping -/

theorem listMinQ_le_of_mem : ∀ {l : List ℚ} {mn x : ℚ},
    listMinQ l = some mn → x ∈ l → mn ≤ x := by
  intro l
  induction l with
  | nil => intro mn x h _; simp [listMinQ] at h
  | cons a as ih =>
    intro mn x h hx
    simp only [listMinQ] at h
    cases hmin : listMinQ as with
    | none =>
      rw [hmin] at h
      have ha : mn = a := by simpa using h.symm
      have : as = [] := by
        cases as with
        | nil => rfl
        | cons b bs => simp [listMinQ] at hmin; cases h' : listMinQ bs <;> simp [h'] at hmin
      subst this
      have : x = a := by simpa using hx
      simp [ha, this]
    | some y =>
      rw [hmin] at h
      have hmn : mn = min a y := by simpa using h.symm
      rcases List.mem_cons.mp hx with rfl | hx'
      · simp [hmn, min_le_left]
      · calc mn = min a y := hmn
          _ ≤ y := min_le_right a y
          _ ≤ x := ih hmin hx'

theorem listMinQ_isSome_of_ne_nil {l : List ℚ} (h : l ≠ []) :
    ∃ mn, listMinQ l = some mn := by
  cases l with
  | nil => exact absurd rfl h
  | cons a as =>
    simp only [listMinQ]
    cases listMinQ as with
    | none => exact ⟨a, rfl⟩
    | some y => exact ⟨min a y, rfl⟩

theorem clampQ_mem_Icc (x lo hi : ℚ) (h : lo ≤ hi) :
    lo ≤ clampQ x lo hi ∧ clampQ x lo hi ≤ hi := by
  unfold clampQ
  constructor
  · exact le_min (le_max_right x lo) h
  · exact min_le_right _ _

theorem clampQ_of_mem (x lo hi : ℚ) (hx : lo ≤ x) (hx' : x ≤ hi) :
    clampQ x lo hi = x := by
  unfold clampQ
  rw [max_eq_left hx, min_eq_left hx']

/-! ## C1: batching refines single-pass evaluation -/

/-- C1: for every population of size `N` and every `max_batch_size M ≥ 1`,
evaluation partitions the candidates into `ceil(N/M)` ordered chunks,
evaluates each chunk independently, and reassembles per-candidate
`(cost, output)` results in the original order, equal to evaluating the
whole population in one pass; a nonempty population with `N < M` yields a
single batch. -/
theorem batch_scheduler_refines_single_pass {α β : Type}
    (M : Nat) (hM : 1 ≤ M) (pop : List α) (f : α → ℚ × β) :
    evalInBatches f M pop = evalOnePass f pop ∧
    (chunkList M pop).length = (pop.length + M - 1) / M ∧
    (0 < pop.length → pop.length < M → (chunkList M pop).length = 1) := by
  refine ⟨?_, ?_, ?_⟩
  · unfold evalInBatches evalOnePass chunkList
    exact chunkListAux_map_join M f pop.length pop (Nat.le_refl _)
  · unfold chunkList
    exact chunkListAux_length M hM pop.length pop (Nat.le_refl _)
  · intro hpos hlt
    unfold chunkList
    rw [chunkListAux_length M hM pop.length pop (Nat.le_refl _)]
    have h1 : pop.length + M - 1 = (pop.length - 1) + M := by omega
    rw [h1, Nat.add_div_right _ (by omega : 0 < M),
        Nat.div_eq_of_lt (by omega : pop.length - 1 < M)]

/-- Witness for C1 at `M = 2`, a population of three candidates, and a
concrete evaluator. -/
theorem batch_scheduler_refines_single_pass_witness :
    evalInBatches (fun x : ℚ => (x, x + 1)) 2 [1, 2, 3] =
      evalOnePass (fun x : ℚ => (x, x + 1)) [1, 2, 3] ∧
    (chunkList 2 [(1 : ℚ), 2, 3]).length = (([(1 : ℚ), 2, 3]).length + 2 - 1) / 2 ∧
    (0 < ([(1 : ℚ), 2, 3]).length → ([(1 : ℚ), 2, 3]).length < 2 →
      (chunkList 2 [(1 : ℚ), 2, 3]).length = 1) :=
  batch_scheduler_refines_single_pass 2 (by decide) [1, 2, 3]
    (fun x : ℚ => (x, x + 1))

/-! ## `__call__` (demo.py lines 139–283) -/

/-- The hidden instance attributes written by `auto_detect` and consumed by
`__call__`: `self._cls_lbl` and `self._mask` (`none` models the attribute
being absent, i.e. `hasattr` false). -/
structure ProjState where
  clsLblAttr : Option Int
  maskAttr : Option NpMask
deriving DecidableEq

/-- demo.py lines 201–205: if `cls_lbl is None` and `self._cls_lbl` exists,
use it and delete the attribute. -/
def resolveCls (st : ProjState) (clsLbl : PyScalar) : PyScalar × ProjState :=
  match clsLbl with
  | .pyNone =>
    match st.clsLblAttr with
    | some l => (.pyInt l, { st with clsLblAttr := none })
    | none => (.pyNone, st)
  | c => (c, st)

/-- demo.py lines 207–211: if `mask is None` and `self._mask` exists, use it
and delete the attribute. -/
def resolveMask (st : ProjState) (mask : Option NpMask) :
    Option NpMask × ProjState :=
  match mask with
  | none =>
    match st.maskAttr with
    | some m => (some m, { st with maskAttr := none })
    | none => (none, st)
  | some m => (some m, st)

/-- The defaults held by the `VariableManager` that matter to `__call__`:
those written by `set_default` (demo.py lines 233–234, 259, 271). -/
structure VarManager where
  numSeedsDefault : Option Nat
  cvDefault : Option Int
  tDefault : Option (List ℚ)
  targetDefault : Option (List ℚ)
  weightDefault : Option (List ℚ)
  zDefault : Option (List ℚ × ℚ)
deriving DecidableEq

/-- The observable actions of one `__call__` run, in program order. -/
inductive Event where
  | searchTransform (metaSteps gradSteps : Nat) (result : List ℚ)
  | setDefaultT (t : List ℚ)
  | encoderWarmStart
  | optimize (metaSteps gradSteps finetuneSteps : Nat) (vm : VarManager)
deriving DecidableEq

/-- Whether an event is the transform-search invocation. -/
def Event.isSearchT : Event → Bool
  | .searchTransform _ _ _ => true
  | _ => false

/-- The step-count and configuration arguments of `__call__`
(demo.py lines 139–151). -/
structure CallArgs where
  imageShape : Nat × Nat × Nat
  numSeeds : Nat
  cmaSteps : Nat
  adamSteps : Nat
  finetuneSteps : Nat
  transformCmaSteps : Nat
  transformAdamSteps : Nat
  encoderInit : Bool
  maxBatchSize : Nat

/-- External collaborators used by `__call__`, kept abstract: the initial
transform estimate from `compute_pre_alignment`, the transform returned by
`search_transform` as a function of the `(meta_steps, grad_steps)` it was
called with, and the encoder warm-start output. -/
structure Externals where
  tInit : List ℚ
  searchT : Nat → Nat → List ℚ
  zEnc : List ℚ

/-- `__call__` (demo.py lines 139–283): resolve auto-detected attributes,
prepare inputs (propagating its assertion failures before anything else
runs), install the defaults, run the transform search with
`meta_steps=transform_adam_steps, grad_steps=transform_cma_steps`
(demo.py lines 250–258), install its result via `set_default(t=t)`,
optionally warm-start `z` from the encoder, and call `optimize`.  Returns
the run result, the final instance state, and the event trace. -/
def projCall (ext : Externals) (a : CallArgs) (st : ProjState) (im : NpImage)
    (clsLbl : PyScalar) (mask : Option NpMask) :
    Except String Unit × ProjState × List Event :=
  let r1 := resolveCls st clsLbl
  let r2 := resolveMask r1.2 mask
  match prepare_input a.imageShape im r1.1 r2.1 (3/10) with
  | .error e => (.error e, r2.2, [])
  | .ok prep =>
    let vm0 : VarManager :=
      { numSeedsDefault := some a.numSeeds,
        cvDefault := some prep.clsEmbed,
        tDefault := some ext.tInit,
        targetDefault := some prep.imData,
        weightDefault := some prep.maskData,
        zDefault := none }
    let t1 := ext.searchT a.transformAdamSteps a.transformCmaSteps
    let vm1 := { vm0 with tDefault := some t1 }
    let vm2 := if a.encoderInit then { vm1 with zDefault := some (ext.zEnc, 1/2) }
               else vm1
    let evs :=
      [Event.searchTransform a.transformAdamSteps a.transformCmaSteps t1,
       Event.setDefaultT t1] ++
      (if a.encoderInit then [Event.encoderWarmStart] else []) ++
      [Event.optimize a.cmaSteps a.adamSteps a.finetuneSteps vm2]
    (.ok (), r2.2, evs)

/-! ## Transform search step semantics

Modelled from the spec: `search_transform` itself is not under `src/` (only
its call site in `demo.py` is).  Per spec sections 4.4–4.5 the transform
search has the same alternating structure as the hybrid optimizer, whose
meta-step loop runs `meta_steps` outer (CMA) iterations with `grad_steps`
gradient steps inside each. -/
structure SearchTransformRun where
  outerIterations : Nat
  gradStepsPerIteration : Nat
deriving DecidableEq

/-- Modelled from the spec: the loop structure of a `search_transform`
invocation with the given `meta_steps` and `grad_steps` arguments. -/
def search_transform (meta_steps grad_steps : Nat) : SearchTransformRun :=
  { outerIterations := meta_steps, gradStepsPerIteration := grad_steps }

/-! ## `auto_detect` (demo.py lines 286–352) -/

/-- One detector candidate: its confidence score, its COCO label index, and
a tag distinguishing it (standing for its box/mask payload). -/
structure DetCandidate where
  score : ℚ
  label : Nat
  tag : Nat
deriving DecidableEq

/-- Insert a candidate into a list sorted by descending score (modelling the
`np.argsort(det_scores)[::-1]` iteration order). -/
def insertByScore (c : DetCandidate) : List DetCandidate → List DetCandidate
  | [] => [c]
  | d :: rest =>
    if d.score < c.score then c :: d :: rest else d :: insertByScore c rest

/-- Sort candidates by descending score. -/
def sortByScoreDesc (l : List DetCandidate) : List DetCandidate :=
  l.foldr insertByScore []

theorem mem_insertByScore (x c : DetCandidate) :
    ∀ (l : List DetCandidate), x ∈ insertByScore c l ↔ x = c ∨ x ∈ l := by
  intro l
  induction l with
  | nil => simp [insertByScore]
  | cons d rest ih =>
    simp only [insertByScore]
    by_cases h : d.score < c.score
    · simp [h]
    · simp [h, ih]
      tauto

theorem mem_sortByScoreDesc (x : DetCandidate) :
    ∀ (l : List DetCandidate), x ∈ sortByScoreDesc l ↔ x ∈ l := by
  intro l
  induction l with
  | nil => simp [sortByScoreDesc]
  | cons d rest ih =>
    simp only [sortByScoreDesc, List.foldr_cons]
    rw [mem_insertByScore]
    simp only [sortByScoreDesc] at ih
    rw [ih]
    simp

/-- The candidate loop of `auto_detect` (demo.py lines 307–344), iterating
over score-sorted candidates: classify the candidate's box crop, and on a
detection/classification match dispatch on `mask_type` — storing
`_cls_lbl`/`_mask` and returning the mask for `mask`/`bbox`, raising
`ValueError` otherwise.  `none` means the loop fell through with no match.
The box crop, the classifier, the COCO/wnid consistency test, and the mask
post-processing (`to_image`, `medianBlur`) are abstracted as parameters. -/
def detectLoop (st : ProjState) (maskType : String)
    (classifyCrop : DetCandidate → Int) (validMatch : Nat → Int → Bool)
    (mkSegMask mkBoxMask : DetCandidate → NpMask) :
    List DetCandidate → Option (Except String (ProjState × NpMask))
  | [] => none
  | c :: rest =>
    if validMatch c.label (classifyCrop c) then
      some (
        if maskType = "mask" then
          let m := mkSegMask c
          .ok ({ st with clsLblAttr := some (classifyCrop c),
                         maskAttr := some m }, m)
        else if maskType = "bbox" then
          let m := mkBoxMask c
          .ok ({ st with clsLblAttr := some (classifyCrop c),
                         maskAttr := some m }, m)
        else .error ("Invalid mask_type " ++ maskType))
    else detectLoop st maskType classifyCrop validMatch mkSegMask mkBoxMask rest

/-- `auto_detect` (demo.py lines 286–352): run the detector; if it returned
candidates, try them from highest to lowest score via `detectLoop`; when no
candidate matches (or there were none), fall back to classifying the whole
image, store the predicted label in `_cls_lbl`, and return `None`. -/
def auto_detect (st : ProjState) (candidates : Option (List DetCandidate))
    (maskType : String) (classifyCrop : DetCandidate → Int)
    (validMatch : Nat → Int → Bool) (mkSegMask mkBoxMask : DetCandidate → NpMask)
    (classifyWhole : Int) : Except String (ProjState × Option NpMask) :=
  match candidates with
  | none => .ok ({ st with clsLblAttr := some classifyWhole }, none)
  | some cands =>
    match detectLoop st maskType classifyCrop validMatch mkSegMask mkBoxMask
        (sortByScoreDesc cands) with
    | some (.ok (st', m)) => .ok (st', some m)
    | some (.error e) => .error e
    | none => .ok ({ st with clsLblAttr := some classifyWhole }, none)

theorem detectLoop_eq_none_of_no_match (st : ProjState) (maskType : String)
    (classifyCrop : DetCandidate → Int) (validMatch : Nat → Int → Bool)
    (mkSegMask mkBoxMask : DetCandidate → NpMask) :
    ∀ (l : List DetCandidate),
      (∀ c ∈ l, validMatch c.label (classifyCrop c) = false) →
      detectLoop st maskType classifyCrop validMatch mkSegMask mkBoxMask l
        = none := by
  intro l
  induction l with
  | nil => intro _; rfl
  | cons c rest ih =>
    intro h
    simp only [detectLoop]
    rw [h c (List.mem_cons_self c rest)]
    simp only [Bool.false_eq_true, if_false]
    exact ih (fun d hd => h d (List.mem_cons_of_mem c hd))

theorem detectLoop_error_of_match_invalid_masktype (st : ProjState)
    (maskType : String) (classifyCrop : DetCandidate → Int)
    (validMatch : Nat → Int → Bool) (mkSegMask mkBoxMask : DetCandidate → NpMask)
    (hmt1 : maskType ≠ "mask") (hmt2 : maskType ≠ "bbox") :
    ∀ (l : List DetCandidate),
      (∃ c ∈ l, validMatch c.label (classifyCrop c) = true) →
      detectLoop st maskType classifyCrop validMatch mkSegMask mkBoxMask l
        = some (.error ("Invalid mask_type " ++ maskType)) := by
  intro l
  induction l with
  | nil => rintro ⟨c, hc, _⟩; simp at hc
  | cons c rest ih =>
    rintro ⟨d, hd, hmatch⟩
    simp only [detectLoop]
    by_cases hc : validMatch c.label (classifyCrop c) = true
    · rw [hc]
      simp [hmt1, hmt2]
    · simp only [hc, if_false]
      apply ih
      rcases List.mem_cons.mp hd with rfl | hd'
      · exact absurd hmatch hc
      · exact ⟨d, hd', hmatch⟩

/-! ## CLI surface (examples/invert_biggan_basincma.py) -/

/-- The parsed CLI arguments (lines 19–31 of the example script). -/
structure CLIArgs where
  fp : String
  mask_fp : String
  class_lbl : Int
  lr : ℚ
  latent_noise : ℚ
  truncate : ℚ
  make_video : Bool
  max_minibatch : Int
  num_samples : Int
deriving DecidableEq

/-- The names registered on the argument parser (lines 19–31). -/
def cliArgNames : List String :=
  ["fp", "mask_fp", "class_lbl", "lr", "latent_noise", "truncate",
   "make_video", "max_minibatch", "num_samples"]

/-- The three step counts of a run. -/
structure OptStepArgs where
  meta_steps : Nat
  grad_steps : Nat
  last_grad_steps : Nat
deriving DecidableEq

/-- Line 109 of the example: `opt.optimize(meta_steps=30, grad_steps=30,
last_grad_steps=300)` — the step counts are literals, taking no CLI input. -/
def optimizeStepArgs (_ : CLIArgs) : OptStepArgs :=
  { meta_steps := 30, grad_steps := 30, last_grad_steps := 300 }

/-- Line 50 of the example: `class_lbl = 153` — the class label actually
used by the run is a literal, shadowing the parsed `--class_lbl`. -/
def classLblUsed (_ : CLIArgs) : Int := 153

/-- The artifact files written by the script (lines 112–125): saved
variable state, the optional video, and the image artifacts. -/
def outputArtifacts (a : CLIArgs) : List String :=
  ["vars.npy"] ++ (if a.make_video then ["out.mp4"] else []) ++
  ["target.jpg", "mask.jpg", "out.jpg", "tracked.npy"]

/-! ## C6: the composed loss is reconstruction + 10 × perceptual -/

/-- C6: the overall loss installed by `__init__` satisfies
`loss_fn(x, y, m) = rloss_fn(x, y, m) + 10 * ploss_fn(x, y, m)` for every
generated output `x`, target `y` and weight `m`. -/
theorem loss_fn_is_weighted_sum
    (rloss ploss : List ℚ → List ℚ → List ℚ → ℚ) (x y m : List ℚ) :
    (initProjector rloss ploss).loss_fn x y m =
      (initProjector rloss ploss).rloss_fn x y m +
        10 * (initProjector rloss ploss).ploss_fn x y m := rfl

/-! ## C2: input validation aborts before any optimization -/

theorem checkMask_error_of_neg (imShape : Nat × Nat × Nat) (m : NpMask)
    (x : ℚ) (hx : x ∈ m.data) (hneg : x ≤ -(1/1000000)) :
    ∃ msg, checkMask imShape (some m) = .error msg := by
  simp only [checkMask]
  by_cases h1 : m.h = imShape.1 ∧ m.w = imShape.2.1
  · rw [if_pos h1]
    by_cases h2 : m.c = 1
    · rw [if_pos h2]
      obtain ⟨mn, hmn⟩ := listMinQ_isSome_of_ne_nil (List.ne_nil_of_mem hx)
      rw [hmn]
      have hmn_le : mn ≤ x := listMinQ_le_of_mem hmn hx
      have hng : ¬ (mn > -(1/1000000)) := by
        intro hgt
        have : (-(1/1000000) : ℚ) < -(1/1000000) :=
          lt_of_lt_of_le hgt (le_trans hmn_le hneg)
        exact lt_irrefl _ this
      refine ⟨"mask has a negative value", ?_⟩
      simp only [hmn]
      rw [if_neg hng]
    · rw [if_neg h2]
      exact ⟨_, rfl⟩
  · rw [if_neg h1]
    exact ⟨_, rfl⟩

theorem resolveCls_fresh (c : PyScalar) :
    resolveCls ⟨none, none⟩ c = (c, ⟨none, none⟩) := by
  cases c <;> rfl

theorem resolveMask_fresh (mask : Option NpMask) :
    resolveMask ⟨none, none⟩ mask = (mask, ⟨none, none⟩) := by
  cases mask <;> rfl

theorem prepare_input_error_cases (imageShape : Nat × Nat × Nat)
    (im : NpImage) (clsLbl : PyScalar) (mask : Option NpMask) (thr : ℚ)
    (h : im.shape ≠ imageShape ∨ clsLbl.isInt = false ∨
         (∃ m, mask = some m ∧ ∃ x ∈ m.data, x ≤ -(1/1000000))) :
    ∃ msg, prepare_input imageShape im clsLbl mask thr = .error msg := by
  by_cases hs : im.shape = imageShape
  · cases hcl : clsLbl with
    | pyNone =>
      exact ⟨"expected cls_lbl to be an integer", by simp [prepare_input, hs]⟩
    | pyOther =>
      exact ⟨"expected cls_lbl to be an integer", by simp [prepare_input, hs]⟩
    | pyInt n =>
      rcases h with h1 | h2 | ⟨m, hm, x, hx, hneg⟩
      · exact absurd hs h1
      · rw [hcl] at h2
        simp [PyScalar.isInt] at h2
      · subst hm
        cases hmax : listMaxQ im.data with
        | none =>
          exact ⟨"zero-size array in image max",
                 by simp [prepare_input, hs, hmax]⟩
        | some mx =>
          obtain ⟨msg, hmsg⟩ := checkMask_error_of_neg im.shape m x hx hneg
          rw [hs] at hmsg
          exact ⟨msg, by simp [prepare_input, hs, hmax, hmsg]⟩
  · exact ⟨"expected shape does not match supplied image shape",
           by simp [prepare_input, hs]⟩

/-- C2: for every call to `prepare_input`, a shape mismatch with the
declared `image_shape`, a class label that is not a Python `int`, or a
supplied mask containing an out-of-range (negative beyond the `-1e-6`
tolerance) value makes the call fail with a validation error surfaced to
the caller, and the surrounding `__call__` run aborts with that error
before any optimization computation (empty event trace). -/
theorem prepare_input_validation_aborts
    (ext : Externals) (a : CallArgs) (im : NpImage) (clsLbl : PyScalar)
    (mask : Option NpMask) (thr : ℚ)
    (h : im.shape ≠ a.imageShape ∨ clsLbl.isInt = false ∨
         (∃ m, mask = some m ∧ ∃ x ∈ m.data, x ≤ -(1/1000000))) :
    (∃ msg, prepare_input a.imageShape im clsLbl mask thr = .error msg) ∧
    (∃ msg, projCall ext a ⟨none, none⟩ im clsLbl mask =
              (.error msg, ⟨none, none⟩, [])) := by
  refine ⟨prepare_input_error_cases a.imageShape im clsLbl mask thr h, ?_⟩
  obtain ⟨msg, hmsg⟩ :=
    prepare_input_error_cases a.imageShape im clsLbl mask (3/10) h
  refine ⟨msg, ?_⟩
  simp only [projCall, resolveCls_fresh, resolveMask_fresh, hmsg]

/-- Witness for C2: a non-integer class label (e.g. a float) aborts the
call and the run, with no events. -/
theorem prepare_input_validation_aborts_witness :
    (∃ msg, prepare_input (256, 256, 3) ⟨(256, 256, 3), [1/2]⟩ .pyOther none
              (3/10) = .error msg) ∧
    (∃ msg, projCall ⟨[0], fun _ _ => [7], [1]⟩
              ⟨(256, 256, 3), 9, 10, 10, 500, 30, 30, true, 9⟩
              ⟨none, none⟩ ⟨(256, 256, 3), [1/2]⟩ .pyOther none =
              (.error msg, ⟨none, none⟩, [])) :=
  prepare_input_validation_aborts ⟨[0], fun _ _ => [7], [1]⟩
    ⟨(256, 256, 3), 9, 10, 10, 500, 30, 30, true, 9⟩
    ⟨(256, 256, 3), [1/2]⟩ .pyOther none (3/10)
    (Or.inr (Or.inl rfl))

/-! ## C8: the returned mask tensor lies in `[mask_threshold, 1]` -/

/-- C8: every element of the mask tensor returned by a successful
`prepare_input` lies in `[mask_threshold, 1]` (for any threshold at most 1,
which includes the default 0.3); when no mask is supplied, the substituted
mask has shape `(1, 1, 256, 256)` and is uniformly 1. -/
theorem mask_tensor_range_and_default (imageShape : Nat × Nat × Nat)
    (im : NpImage) (clsLbl : PyScalar) (mask : Option NpMask) (thr : ℚ)
    (r : PreparedInput) (hthr : thr ≤ 1)
    (hok : prepare_input imageShape im clsLbl mask thr = .ok r) :
    (∀ x ∈ r.maskData, thr ≤ x ∧ x ≤ 1) ∧
    (mask = none → r.maskShape = (1, 1, 256, 256) ∧
      r.maskData = List.replicate (256 * 256) 1) := by
  unfold prepare_input at hok
  by_cases hs : im.shape = imageShape
  · rw [if_pos hs] at hok
    cases clsLbl with
    | pyNone => simp at hok
    | pyOther => simp at hok
    | pyInt n =>
      cases hmax : listMaxQ im.data with
      | none => rw [hmax] at hok; simp at hok
      | some mx =>
        rw [hmax] at hok
        cases hcm : checkMask im.shape mask with
        | error e => rw [hcm] at hok; simp at hok
        | ok p =>
          obtain ⟨mshape, mdata⟩ := p
          rw [hcm] at hok
          simp only [Except.ok.injEq] at hok
          subst hok
          constructor
          · intro x hx
            simp only [List.mem_map] at hx
            obtain ⟨y, _, hy⟩ := hx
            rw [← hy]
            exact clampQ_mem_Icc y thr 1 hthr
          · intro hnone
            subst hnone
            have : checkMask im.shape none =
                .ok ((1, 1, 256, 256), List.replicate (256 * 256) 1) := rfl
            rw [this] at hcm
            simp only [Except.ok.injEq, Prod.mk.injEq] at hcm
            obtain ⟨h1, h2⟩ := hcm
            subst h1
            subst h2
            refine ⟨rfl, ?_⟩
            simp only [List.map_replicate]
            rw [clampQ_of_mem 1 thr 1 hthr (le_refl 1)]
  · rw [if_neg hs] at hok
    simp at hok

/-- Witness for C8 at the default threshold 0.3 and a concrete accepted
mask. -/
theorem mask_tensor_range_and_default_witness :
    (∀ x ∈ (PreparedInput.mk [0] 5 (1, 1, 256, 256) [1/2]).maskData,
      (3 : ℚ)/10 ≤ x ∧ x ≤ 1) ∧
    (some (NpMask.mk 256 256 1 [1/2]) = none →
      (PreparedInput.mk [0] 5 (1, 1, 256, 256) [1/2]).maskShape
          = (1, 1, 256, 256) ∧
      (PreparedInput.mk [0] 5 (1, 1, 256, 256) [1/2]).maskData
          = List.replicate (256 * 256) 1) :=
  mask_tensor_range_and_default (256, 256, 3) ⟨(256, 256, 3), [1/2]⟩
    (.pyInt 5) (some (NpMask.mk 256 256 1 [1/2])) (3/10)
    (PreparedInput.mk [0] 5 (1, 1, 256, 256) [1/2])
    (by norm_num)
    (by norm_num [prepare_input, checkMask, listMinQ, listMaxQ, clampQ])

/-! ## C3: transform search runs once, before optimize, and its result is
installed as the default of `t` -/

/-- C3: in every completed `__call__` run, the transform search is executed
exactly once, before `optimize`, and the transform parameter it returns is
installed via `set_default` as the default value of the transform variable
`t` held by the variable manager that the main `optimize` run consumes. -/
theorem transform_search_once_before_optimize (ext : Externals) (a : CallArgs)
    (st : ProjState) (im : NpImage) (clsLbl : PyScalar) (mask : Option NpMask)
    (hok : (projCall ext a st im clsLbl mask).1.isOk = true) :
    ∃ pre mid vmF,
      (projCall ext a st im clsLbl mask).2.2 =
        pre ++ Event.searchTransform a.transformAdamSteps a.transformCmaSteps
            (ext.searchT a.transformAdamSteps a.transformCmaSteps) ::
          (mid ++ [Event.optimize a.cmaSteps a.adamSteps a.finetuneSteps vmF]) ∧
      (∀ e ∈ pre, e.isSearchT = false) ∧
      (∀ e ∈ mid, e.isSearchT = false) ∧
      Event.setDefaultT
          (ext.searchT a.transformAdamSteps a.transformCmaSteps) ∈ mid ∧
      vmF.tDefault =
        some (ext.searchT a.transformAdamSteps a.transformCmaSteps) := by
  simp only [projCall] at hok ⊢
  split at hok
  · simp [Except.isOk, Except.toBool] at hok
  · rename_i x prep hprep
    by_cases henc : a.encoderInit
    · refine ⟨[], [Event.setDefaultT
          (ext.searchT a.transformAdamSteps a.transformCmaSteps),
          Event.encoderWarmStart],
          { numSeedsDefault := some a.numSeeds,
            cvDefault := some prep.clsEmbed,
            tDefault :=
              some (ext.searchT a.transformAdamSteps a.transformCmaSteps),
            targetDefault := some prep.imData,
            weightDefault := some prep.maskData,
            zDefault := some (ext.zEnc, 1/2) }, ?_, ?_, ?_, ?_, ?_⟩
      · simp [henc]
      · intro e he; simp at he
      · intro e he
        rcases List.mem_cons.mp he with rfl | he'
        · rfl
        · rcases List.mem_cons.mp he' with rfl | he''
          · rfl
          · simp at he''
      · simp
      · rfl
    · refine ⟨[], [Event.setDefaultT
          (ext.searchT a.transformAdamSteps a.transformCmaSteps)],
          { numSeedsDefault := some a.numSeeds,
            cvDefault := some prep.clsEmbed,
            tDefault :=
              some (ext.searchT a.transformAdamSteps a.transformCmaSteps),
            targetDefault := some prep.imData,
            weightDefault := some prep.maskData,
            zDefault := none }, ?_, ?_, ?_, ?_, ?_⟩
      · simp [henc]
      · intro e he; simp at he
      · intro e he
        rcases List.mem_cons.mp he with rfl | he'
        · rfl
        · simp at he'
      · simp
      · rfl

/-- Witness for C3 at a completed concrete run. -/
theorem transform_search_once_before_optimize_witness :
    ∃ pre mid vmF,
      (projCall ⟨[0], fun _ _ => [7], [1]⟩
          ⟨(256, 256, 3), 9, 10, 11, 500, 30, 40, true, 9⟩
          ⟨none, none⟩ ⟨(256, 256, 3), [1/2]⟩ (.pyInt 5) none).2.2 =
        pre ++ Event.searchTransform 40 30 ((fun _ _ => [7]) 40 30) ::
          (mid ++ [Event.optimize 10 11 500 vmF]) ∧
      (∀ e ∈ pre, e.isSearchT = false) ∧
      (∀ e ∈ mid, e.isSearchT = false) ∧
      Event.setDefaultT ((fun _ _ => [7]) 40 30) ∈ mid ∧
      vmF.tDefault = some ((fun _ _ => [7]) 40 30) :=
  transform_search_once_before_optimize ⟨[0], fun _ _ => [7], [1]⟩
    ⟨(256, 256, 3), 9, 10, 11, 500, 30, 40, true, 9⟩
    ⟨none, none⟩ ⟨(256, 256, 3), [1/2]⟩ (.pyInt 5) none
    (by norm_num [projCall, resolveCls, resolveMask, prepare_input,
                  checkMask, listMinQ, listMaxQ, clampQ, Except.isOk,
                  Except.toBool])

/-! ## C9: transform search's meta/grad step arguments are swapped -/

/-- C9: every completed `__call__` run invokes the transform search with
`meta_steps` set to the `transform_adam_steps` argument and `grad_steps`
set to the `transform_cma_steps` argument (demo.py lines 250–258) — so,
with the transform-search loop structure modelled from the spec, the number
of outer (CMA/meta) iterations of the transform stage equals
`transform_adam_steps` and the number of gradient steps per iteration
equals `transform_cma_steps`, the opposite of what the parameter names and
their documentation state. -/
theorem search_transform_steps_swapped (ext : Externals) (a : CallArgs)
    (st : ProjState) (im : NpImage) (clsLbl : PyScalar) (mask : Option NpMask)
    (hok : (projCall ext a st im clsLbl mask).1.isOk = true) :
    Event.searchTransform a.transformAdamSteps a.transformCmaSteps
        (ext.searchT a.transformAdamSteps a.transformCmaSteps)
      ∈ (projCall ext a st im clsLbl mask).2.2 ∧
    (∀ m g r, Event.searchTransform m g r ∈
        (projCall ext a st im clsLbl mask).2.2 →
      m = a.transformAdamSteps ∧ g = a.transformCmaSteps) ∧
    (search_transform a.transformAdamSteps a.transformCmaSteps).outerIterations
        = a.transformAdamSteps ∧
    (search_transform a.transformAdamSteps
        a.transformCmaSteps).gradStepsPerIteration = a.transformCmaSteps := by
  simp only [projCall] at hok ⊢
  split at hok
  · simp [Except.isOk, Except.toBool] at hok
  · refine ⟨by simp, ?_, rfl, rfl⟩
    intro m g r hmem
    by_cases henc : a.encoderInit <;> simp [henc] at hmem <;>
      exact ⟨hmem.1, hmem.2.1⟩

/-- Witness for C9 at a completed concrete run with distinguishable step
counts (`transform_cma_steps = 30`, `transform_adam_steps = 40`). -/
theorem search_transform_steps_swapped_witness :
    Event.searchTransform 40 30 ((fun _ _ => [7]) 40 30)
      ∈ (projCall ⟨[0], fun _ _ => [7], [1]⟩
          ⟨(256, 256, 3), 9, 10, 11, 500, 30, 40, false, 9⟩
          ⟨none, none⟩ ⟨(256, 256, 3), [1/2]⟩ (.pyInt 5) none).2.2 ∧
    (∀ m g r, Event.searchTransform m g r ∈
        (projCall ⟨[0], fun _ _ => [7], [1]⟩
          ⟨(256, 256, 3), 9, 10, 11, 500, 30, 40, false, 9⟩
          ⟨none, none⟩ ⟨(256, 256, 3), [1/2]⟩ (.pyInt 5) none).2.2 →
      m = 40 ∧ g = 30) ∧
    (search_transform 40 30).outerIterations = 40 ∧
    (search_transform 40 30).gradStepsPerIteration = 30 :=
  search_transform_steps_swapped ⟨[0], fun _ _ => [7], [1]⟩
    ⟨(256, 256, 3), 9, 10, 11, 500, 30, 40, false, 9⟩
    ⟨none, none⟩ ⟨(256, 256, 3), [1/2]⟩ (.pyInt 5) none
    (by norm_num [projCall, resolveCls, resolveMask, prepare_input,
                  checkMask, listMinQ, listMaxQ, clampQ, Except.isOk,
                  Except.toBool])

/-! ## C10: auto-detected attributes are consumed at most once -/

theorem projCall_state (ext : Externals) (a : CallArgs) (st : ProjState)
    (im : NpImage) (clsLbl : PyScalar) (mask : Option NpMask) :
    (projCall ext a st im clsLbl mask).2.1 =
      (resolveMask (resolveCls st clsLbl).2 mask).2 := by
  simp only [projCall]
  split <;> rfl

/-- C10: when `__call__` is invoked with `cls_lbl=None` and `mask=None`
and both auto-detected attributes are present, it reads the stored values
and deletes both attributes, so the state left by the run holds neither,
and a subsequent `__call__` with `None` arguments resolves to no stored
class label and no stored mask. -/
theorem auto_detect_attrs_consumed_once (ext : Externals) (a : CallArgs)
    (st : ProjState) (im : NpImage) (l : Int) (m : NpMask)
    (h1 : st.clsLblAttr = some l) (h2 : st.maskAttr = some m) :
    (resolveCls st .pyNone).1 = .pyInt l ∧
    (resolveMask st none).1 = some m ∧
    (projCall ext a st im .pyNone none).2.1.clsLblAttr = none ∧
    (projCall ext a st im .pyNone none).2.1.maskAttr = none ∧
    (resolveCls (projCall ext a st im .pyNone none).2.1 .pyNone).1
        = .pyNone ∧
    (resolveMask (projCall ext a st im .pyNone none).2.1 none).1 = none := by
  simp [projCall_state, resolveCls, resolveMask, h1, h2]

/-- Witness for C10 at a concrete state holding both attributes. -/
theorem auto_detect_attrs_consumed_once_witness :
    (resolveCls ⟨some 3, some ⟨1, 1, 1, [1]⟩⟩ .pyNone).1 = .pyInt 3 ∧
    (resolveMask ⟨some 3, some ⟨1, 1, 1, [1]⟩⟩ none).1
        = some ⟨1, 1, 1, [1]⟩ ∧
    (projCall ⟨[0], fun _ _ => [7], [1]⟩
        ⟨(256, 256, 3), 9, 10, 10, 500, 30, 30, true, 9⟩
        ⟨some 3, some ⟨1, 1, 1, [1]⟩⟩ ⟨(256, 256, 3), [1/2]⟩
        .pyNone none).2.1.clsLblAttr = none ∧
    (projCall ⟨[0], fun _ _ => [7], [1]⟩
        ⟨(256, 256, 3), 9, 10, 10, 500, 30, 30, true, 9⟩
        ⟨some 3, some ⟨1, 1, 1, [1]⟩⟩ ⟨(256, 256, 3), [1/2]⟩
        .pyNone none).2.1.maskAttr = none ∧
    (resolveCls (projCall ⟨[0], fun _ _ => [7], [1]⟩
        ⟨(256, 256, 3), 9, 10, 10, 500, 30, 30, true, 9⟩
        ⟨some 3, some ⟨1, 1, 1, [1]⟩⟩ ⟨(256, 256, 3), [1/2]⟩
        .pyNone none).2.1 .pyNone).1 = .pyNone ∧
    (resolveMask (projCall ⟨[0], fun _ _ => [7], [1]⟩
        ⟨(256, 256, 3), 9, 10, 10, 500, 30, 30, true, 9⟩
        ⟨some 3, some ⟨1, 1, 1, [1]⟩⟩ ⟨(256, 256, 3), [1/2]⟩
        .pyNone none).2.1 none).1 = none :=
  auto_detect_attrs_consumed_once ⟨[0], fun _ _ => [7], [1]⟩
    ⟨(256, 256, 3), 9, 10, 10, 500, 30, 30, true, 9⟩
    ⟨some 3, some ⟨1, 1, 1, [1]⟩⟩ ⟨(256, 256, 3), [1/2]⟩ 3 ⟨1, 1, 1, [1]⟩
    rfl rfl

/-! ## C4: auto-detection failure falls back and is never fatal -/

/-- C4: whenever no detector candidate is consistent with the classifier's
prediction (including when the detector returns no candidates at all),
`auto_detect` recovers by classifying the whole image with no mask, stores
the predicted class label in `_cls_lbl`, and returns without raising. -/
theorem auto_detect_fallback_not_fatal (st : ProjState)
    (candidates : Option (List DetCandidate)) (maskType : String)
    (classifyCrop : DetCandidate → Int) (validMatch : Nat → Int → Bool)
    (mkSegMask mkBoxMask : DetCandidate → NpMask) (classifyWhole : Int)
    (h : candidates = none ∨ ∃ cands, candidates = some cands ∧
         ∀ c ∈ cands, validMatch c.label (classifyCrop c) = false) :
    auto_detect st candidates maskType classifyCrop validMatch mkSegMask
        mkBoxMask classifyWhole =
      .ok ({ st with clsLblAttr := some classifyWhole }, none) := by
  rcases h with rfl | ⟨cands, rfl, hall⟩
  · rfl
  · simp only [auto_detect]
    rw [detectLoop_eq_none_of_no_match st maskType classifyCrop validMatch
          mkSegMask mkBoxMask (sortByScoreDesc cands)
          (fun c hc => hall c ((mem_sortByScoreDesc c cands).mp hc))]

/-- Witness for C4: one candidate, inconsistent with the classifier. -/
theorem auto_detect_fallback_not_fatal_witness :
    auto_detect ⟨none, none⟩ (some [⟨1, 0, 0⟩]) "mask" (fun _ => 2)
        (fun _ _ => false) (fun _ => ⟨1, 1, 1, [1]⟩) (fun _ => ⟨1, 1, 1, [1]⟩)
        7 =
      .ok (⟨some 7, none⟩, none) :=
  auto_detect_fallback_not_fatal ⟨none, none⟩ (some [⟨1, 0, 0⟩]) "mask"
    (fun _ => 2) (fun _ _ => false) (fun _ => ⟨1, 1, 1, [1]⟩)
    (fun _ => ⟨1, 1, 1, [1]⟩) 7
    (Or.inr ⟨[⟨1, 0, 0⟩], rfl, fun _ _ => rfl⟩)

/-! ## C5: an unsupported mask_type is not rejected up front -/

/-- Counterexample to C5: a call to `auto_detect` with the unsupported
`mask_type` value `"weird"` in which the detector finds no candidate
completes without any error at all — the configuration error is not
surfaced immediately and does not abort before computation. -/
theorem auto_detect_invalid_masktype_not_immediate :
    auto_detect ⟨none, none⟩ none "weird" (fun _ => 0) (fun _ _ => false)
        (fun _ => ⟨1, 1, 1, [1]⟩) (fun _ => ⟨1, 1, 1, [1]⟩) 7 =
      .ok (⟨some 7, none⟩, none) := rfl

/-- C5 (amended): with an unsupported `mask_type`, `auto_detect` raises the
`ValueError` for the invalid mask_type only upon reaching a detector
candidate consistent with the classifier's prediction — i.e. after the
detector and classifier have already run; with no consistent candidate the
error is never raised. -/
theorem auto_detect_invalid_masktype_raises_on_match (st : ProjState)
    (cands : List DetCandidate) (maskType : String)
    (classifyCrop : DetCandidate → Int) (validMatch : Nat → Int → Bool)
    (mkSegMask mkBoxMask : DetCandidate → NpMask) (classifyWhole : Int)
    (hmt1 : maskType ≠ "mask") (hmt2 : maskType ≠ "bbox")
    (hex : ∃ c ∈ cands, validMatch c.label (classifyCrop c) = true) :
    auto_detect st (some cands) maskType classifyCrop validMatch mkSegMask
        mkBoxMask classifyWhole =
      .error ("Invalid mask_type " ++ maskType) := by
  simp only [auto_detect]
  rw [detectLoop_error_of_match_invalid_masktype st maskType classifyCrop
        validMatch mkSegMask mkBoxMask hmt1 hmt2 (sortByScoreDesc cands) ?_]
  obtain ⟨c, hc, hm⟩ := hex
  exact ⟨c, (mem_sortByScoreDesc c cands).mpr hc, hm⟩

/-- Witness for the amended C5: one consistent candidate and
`mask_type = "weird"` raise the invalid-mask_type error. -/
theorem auto_detect_invalid_masktype_raises_on_match_witness :
    auto_detect ⟨none, none⟩ (some [⟨1, 0, 0⟩]) "weird" (fun _ => 2)
        (fun _ _ => true) (fun _ => ⟨1, 1, 1, [1]⟩) (fun _ => ⟨1, 1, 1, [1]⟩)
        7 =
      .error ("Invalid mask_type " ++ "weird") :=
  auto_detect_invalid_masktype_raises_on_match ⟨none, none⟩ [⟨1, 0, 0⟩]
    "weird" (fun _ => 2) (fun _ _ => true) (fun _ => ⟨1, 1, 1, [1]⟩)
    (fun _ => ⟨1, 1, 1, [1]⟩) 7 (by decide) (by decide)
    ⟨⟨1, 0, 0⟩, List.mem_cons_self _ _, rfl⟩

/-! ## C7: the CLI surface -/

/-- Counterexample to C7: the CLI accepts no step-count parameters — the
step counts passed to `optimize` are literal constants, identical for two
entirely different argument sets, no step-count name is registered on the
parser, and the class label actually used is likewise a constant. -/
theorem cli_step_counts_hardcoded_cex :
    optimizeStepArgs ⟨"a.jpg", "am.jpg", 1, 1/10, 1/20, 2, false, 4, 4⟩ =
      optimizeStepArgs ⟨"b.jpg", "bm.jpg", 2, 3/10, 1/10, 3, true, 8, 8⟩ ∧
    ("meta_steps" ∈ cliArgNames) = False ∧
    ("grad_steps" ∈ cliArgNames) = False ∧
    ("last_grad_steps" ∈ cliArgNames) = False ∧
    classLblUsed ⟨"a.jpg", "am.jpg", 1, 1/10, 1/20, 2, false, 4, 4⟩ =
      classLblUsed ⟨"b.jpg", "bm.jpg", 2, 3/10, 1/10, 3, true, 8, 8⟩ :=
  ⟨rfl, by simp [cliArgNames], by simp [cliArgNames], by simp [cliArgNames],
   rfl⟩

/-- C7 (amended): the CLI accepts an image path, mask path, class label,
learning rate, truncation bound, and batch-size bound (but no step-count
parameters: the run's step counts are the constants `meta_steps = 30`,
`grad_steps = 30`, `last_grad_steps = 300`), and produces saved variable
state, an optional video, and image artifacts. -/
theorem cli_surface_amended (a : CLIArgs) :
    "fp" ∈ cliArgNames ∧ "mask_fp" ∈ cliArgNames ∧
    "class_lbl" ∈ cliArgNames ∧ "lr" ∈ cliArgNames ∧
    "truncate" ∈ cliArgNames ∧ "max_minibatch" ∈ cliArgNames ∧
    optimizeStepArgs a = ⟨30, 30, 300⟩ ∧
    "vars.npy" ∈ outputArtifacts a ∧
    ("out.mp4" ∈ outputArtifacts a ↔ a.make_video = true) ∧
    "target.jpg" ∈ outputArtifacts a ∧ "mask.jpg" ∈ outputArtifacts a ∧
    "out.jpg" ∈ outputArtifacts a := by
  refine ⟨by simp [cliArgNames], by simp [cliArgNames], by simp [cliArgNames],
    by simp [cliArgNames], by simp [cliArgNames], by simp [cliArgNames],
    rfl, ?_, ?_, ?_, ?_, ?_⟩ <;>
  cases h : a.make_video <;> simp [outputArtifacts, h]

end Pix2Latent
